import Mathlib

/-!
Verification of the OTP-gated authentication and session-token subsystem of
the DevRoom-WeatherApp backend.

The TypeScript source is shallowly embedded: each database-backed model class
(`OTPModel`, `UserModel`, `RefreshTokenModel`, `TokenModel`) becomes a pure
function over an explicit list of rows, and each controller
(`login`, `refreshToken`, `resetPassword`, `sendOTP`, `verifyOTP`,
`resetPasswordWithToken`) becomes a state-passing function from the combined
application state and its request inputs to a response plus an updated state.
Timestamps are naturals (milliseconds, as in `Date.now()`).  Randomly
generated values (OTP codes, refresh tokens, reset tokens, JWTs) are passed in
as parameters, which models the random generator as an oracle.  bcrypt hashes
are modelled as an abstract tagged value carrying the cost and the hashed
input, so that `bcrypt.compare` is expressible and a stored hash is
distinguishable from a stored plaintext string.

The repository carries two variants of the OTP model: the one in
`src/backend/src/models/OTP.ts`, which stores the code itself in an
`otp_code` column and is the variant imported by the auth controller, and a
hashed variant (the `OTPModel` with `otp_hash` found alongside
`errorHandler.ts`), which bcrypt-hashes the code and deletes prior
unverified records before inserting.  Both are embedded here, the hashed one
under the `OTPModelHashed` namespace.
-/

/-- OTP purpose, the `type` column of the `otps` table. -/
inductive OTPKind where
  | registration
  | password_reset
deriving DecidableEq, Repr

/-- Abstract model of a bcrypt hash value: the tag records the cost factor
and the hashed input.  A stored `HashVal` is a one-way hash in the model;
a stored `String` equal to the code is a persisted plaintext. -/
inductive HashVal where
  | bcrypt (cost : Nat) (input : String)
deriving DecidableEq, Repr

/-- `bcrypt.hash(plain, cost)`. -/
def bcryptHash (cost : Nat) (plain : String) : HashVal :=
  HashVal.bcrypt cost plain

/-- `bcrypt.compare(plain, hash)`. -/
def bcryptCompare (plain : String) (h : HashVal) : Bool :=
  match h with
  | HashVal.bcrypt _ s => plain == s

/-- A row of the `users` table (`src/backend/src/models/User.ts`). -/
structure UserRow where
  id : Nat
  username : String
  email : String
  password_hash : HashVal
  email_verified : Bool
deriving DecidableEq, Repr

/-- A row of the `otps` table as written by `src/backend/src/models/OTP.ts`:
the code is stored in the `otp_code` column; registration staging data
(`username`, `password_hash`) may accompany it. -/
structure OTPRow where
  id : Nat
  email : String
  otp_code : String
  kind : OTPKind
  username : Option String
  password_hash : Option HashVal
  is_verified : Bool
  expires_at : Nat
  created_at : Nat
deriving DecidableEq, Repr

/-- A row of the `otps` table as written by the hashed `OTPModel` variant:
only the bcrypt hash of the code is stored (`otp_hash`), matching
`schema.sql`. -/
structure OTPHashedRow where
  id : Nat
  email : String
  otp_hash : HashVal
  kind : OTPKind
  is_verified : Bool
  expires_at : Nat
  created_at : Nat
deriving DecidableEq, Repr

/-- A row of the `refresh_tokens` table (`src/backend/src/models/RefreshToken.ts`). -/
structure RefreshRow where
  user_id : Nat
  token : String
  expires_at : Nat
deriving DecidableEq, Repr

/-- A row of the `password_reset_tokens` table (`src/backend/src/models/Token.ts`). -/
structure ResetTokenRow where
  user_id : Nat
  token : String
  expires_at : Nat
  used : Bool
deriving DecidableEq, Repr

/-- An email handed to the notification collaborator
(`emailService.sendOTPEmail`): destination, plaintext code, purpose. -/
structure SentEmail where
  dest : String
  otp : String
  kind : OTPKind
deriving DecidableEq, Repr

/-- The durable state shared by the auth controllers. -/
structure AppState where
  users : List UserRow
  otps : List OTPRow
  refreshTokens : List RefreshRow
  resetTokens : List ResetTokenRow
deriving DecidableEq, Repr

/-- An HTTP response as produced by the controllers: status code, `success`
flag, `message` string. -/
structure ApiResponse where
  status : Nat
  success : Bool
  message : String
deriving DecidableEq, Repr

/-! ## UserModel (`src/backend/src/models/User.ts`) -/

/-- `SELECT * FROM users WHERE email = $1`. -/
def UserModel.findByEmail (users : List UserRow) (email : String) : Option UserRow :=
  users.find? (fun u => u.email == email)

/-- `SELECT * FROM users WHERE username = $1`. -/
def UserModel.findByUsername (users : List UserRow) (username : String) : Option UserRow :=
  users.find? (fun u => u.username == username)

/-- `SELECT ... FROM users WHERE id = $1`. -/
def UserModel.findById (users : List UserRow) (id : Nat) : Option UserRow :=
  users.find? (fun u => u.id == id)

/-- `bcrypt.compare(plainPassword, hashedPassword)`. -/
def UserModel.verifyPassword (plain : String) (hashed : HashVal) : Bool :=
  bcryptCompare plain hashed

/-- `UserModel.emailExists`. -/
def UserModel.emailExists (users : List UserRow) (email : String) : Bool :=
  (UserModel.findByEmail users email).isSome

/-- Modelled from the spec: `UserModel.updatePassword` is called by the
`resetPassword` and `resetPasswordWithToken` controllers but its definition
is not among the provided source files (the `UserModel` in the sources stops
at `usernameExists`).  The spec says: "hash newPassword (slow hash, same
class as passcode hashing) → replace the Identity's password_hash". -/
def UserModel.updatePassword (users : List UserRow) (userId : Nat) (password : String) :
    List UserRow :=
  users.map (fun u =>
    if u.id == userId then { u with password_hash := bcryptHash 10 password } else u)

/-! ## OTPModel, plaintext variant (`src/backend/src/models/OTP.ts`) -/

/-- `OTPModel.create`: `INSERT INTO otps (email, otp_code, type, is_verified,
expires_at) VALUES (...)` with `expires_at = now + expiresIn seconds`.
No prior record is deleted. -/
def OTPModel.create (otps : List OTPRow) (nextId now : Nat) (email otpCode : String)
    (kind : OTPKind) (expiresIn : Nat) : List OTPRow :=
  otps ++ [{ id := nextId, email := email, otp_code := otpCode, kind := kind,
             username := none, password_hash := none, is_verified := false,
             expires_at := now + expiresIn * 1000, created_at := now }]

/-- `OTPModel.createWithRegistrationData`: like `create` with
`type = 'registration'` and the staged `username` and `password_hash`
columns filled in. -/
def OTPModel.createWithRegistrationData (otps : List OTPRow) (nextId now : Nat)
    (email otpCode username : String) (passwordHash : HashVal) (expiresIn : Nat) :
    List OTPRow :=
  otps ++ [{ id := nextId, email := email, otp_code := otpCode, kind := OTPKind.registration,
             username := some username, password_hash := some passwordHash,
             is_verified := false, expires_at := now + expiresIn * 1000, created_at := now }]

/-- The `WHERE` clause of `OTPModel.verify`:
`email = $1 AND otp_code = $2 AND type = $3 AND is_verified = false AND
expires_at > NOW()`. -/
def OTPModel.matches (email otpCode : String) (kind : OTPKind) (now : Nat)
    (r : OTPRow) : Bool :=
  r.email == email && r.otp_code == otpCode && r.kind == kind &&
    r.is_verified == false && decide (now < r.expires_at)

/-- `ORDER BY created_at DESC LIMIT 1` over the rows satisfying `p`:
the matching row with the greatest `created_at` (later rows win ties,
matching insertion order). -/
def latestMatching (otps : List OTPRow) (p : OTPRow → Bool) : Option OTPRow :=
  otps.foldl
    (fun acc r =>
      if p r then
        match acc with
        | none => some r
        | some a => if a.created_at ≤ r.created_at then some r else some a
      else acc)
    none

/-- `OTPModel.verify`: select the newest row matching
(email, otp_code, type, unverified, unexpired); if none, return `none`
and leave the table unchanged; otherwise `UPDATE otps SET is_verified = true
WHERE id = ...` and return the row. -/
def OTPModel.verify (otps : List OTPRow) (now : Nat) (email otpCode : String)
    (kind : OTPKind) : Option OTPRow × List OTPRow :=
  match latestMatching otps (OTPModel.matches email otpCode kind now) with
  | none => (none, otps)
  | some r =>
      (some r, otps.map (fun x => if x.id == r.id then { x with is_verified := true } else x))

/-- `OTPModel.getRegistrationData`: calls `verify` again (with
`type = 'registration'`) and extracts the staged `username` and
`password_hash` if both are present. -/
def OTPModel.getRegistrationData (otps : List OTPRow) (now : Nat) (email otpCode : String) :
    Option (String × HashVal) × List OTPRow :=
  match OTPModel.verify otps now email otpCode OTPKind.registration with
  | (none, otps') => (none, otps')
  | (some r, otps') =>
      match r.username, r.password_hash with
      | some u, some h => (some (u, h), otps')
      | _, _ => (none, otps')

/-- `OTPModel.deleteByEmailAndType`: `DELETE FROM otps WHERE email = $1 AND
type = $2`. -/
def OTPModel.deleteByEmailAndType (otps : List OTPRow) (email : String) (kind : OTPKind) :
    List OTPRow :=
  otps.filter (fun r => !(r.email == email && r.kind == kind))

/-! ## OTPModel, hashed variant (the `otp_hash` `OTPModel` packaged with
`errorHandler.ts`, the variant matching `schema.sql`) -/

/-- Hashed-variant `OTPModel.create`: bcrypt-hash the code with 10 salt
rounds, `DELETE FROM otps WHERE email = $1 AND type = $2 AND
is_verified = false`, then insert the new row. -/
def OTPModelHashed.create (otps : List OTPHashedRow) (nextId now : Nat)
    (email otpCode : String) (kind : OTPKind) (expiresIn : Nat) : List OTPHashedRow :=
  (otps.filter (fun r => !(r.email == email && r.kind == kind && r.is_verified == false)))
    ++ [{ id := nextId, email := email, otp_hash := bcryptHash 10 otpCode, kind := kind,
          is_verified := false, expires_at := now + expiresIn * 1000, created_at := now }]

/-- The `WHERE` clause of the hashed `OTPModel.verify`: no code column in the
query — `email = $1 AND type = $2 AND is_verified = false AND
expires_at > NOW()`. -/
def OTPModelHashed.matches (email : String) (kind : OTPKind) (now : Nat)
    (r : OTPHashedRow) : Bool :=
  r.email == email && r.kind == kind && r.is_verified == false && decide (now < r.expires_at)

/-- `ORDER BY created_at DESC LIMIT 1` for the hashed rows. -/
def latestMatchingHashed (otps : List OTPHashedRow) (p : OTPHashedRow → Bool) :
    Option OTPHashedRow :=
  otps.foldl
    (fun acc r =>
      if p r then
        match acc with
        | none => some r
        | some a => if a.created_at ≤ r.created_at then some r else some a
      else acc)
    none

/-- Hashed-variant `OTPModel.verify`: fetch the newest unconsumed unexpired
row for (email, type); compare the submitted code against `otp_hash` with
`bcrypt.compare`; on match mark the row verified and return `true`. -/
def OTPModelHashed.verify (otps : List OTPHashedRow) (now : Nat) (email otpCode : String)
    (kind : OTPKind) : Bool × List OTPHashedRow :=
  match latestMatchingHashed otps (OTPModelHashed.matches email kind now) with
  | none => (false, otps)
  | some r =>
      if bcryptCompare otpCode r.otp_hash then
        (true, otps.map (fun x => if x.id == r.id then { x with is_verified := true } else x))
      else
        (false, otps)

/-! ## RefreshTokenModel (`src/backend/src/models/RefreshToken.ts`) -/

/-- 30 days in milliseconds: refresh tokens expire 30 days after creation. -/
def refreshTokenTTL : Nat := 30 * 24 * 60 * 60 * 1000

/-- `RefreshTokenModel.create`: insert a row for `userId` expiring in 30
days.  The securely random token produced by `crypto.randomBytes` is passed
in as `token`. -/
def RefreshTokenModel.create (rts : List RefreshRow) (userId : Nat) (token : String)
    (now : Nat) : List RefreshRow :=
  rts ++ [{ user_id := userId, token := token, expires_at := now + refreshTokenTTL }]

/-- `RefreshTokenModel.findByToken`: `SELECT * FROM refresh_tokens WHERE
token = $1 AND expires_at > NOW()`. -/
def RefreshTokenModel.findByToken (rts : List RefreshRow) (token : String) (now : Nat) :
    Option RefreshRow :=
  rts.find? (fun r => r.token == token && decide (now < r.expires_at))

/-- `RefreshTokenModel.deleteByToken`: `DELETE FROM refresh_tokens WHERE
token = $1`. -/
def RefreshTokenModel.deleteByToken (rts : List RefreshRow) (token : String) :
    List RefreshRow :=
  rts.filter (fun r => !(r.token == token))

/-- `RefreshTokenModel.deleteAllByUserId`: `DELETE FROM refresh_tokens WHERE
user_id = $1`. -/
def RefreshTokenModel.deleteAllByUserId (rts : List RefreshRow) (userId : Nat) :
    List RefreshRow :=
  rts.filter (fun r => !(r.user_id == userId))

/-! ## TokenModel password-reset tokens (`src/backend/src/models/Token.ts`) -/

/-- `TokenModel.createPasswordResetToken`: insert a row for `userId` with the
given token, expiring in 1 hour, `used = false`. -/
def TokenModel.createPasswordResetToken (toks : List ResetTokenRow) (userId : Nat)
    (token : String) (now : Nat) : List ResetTokenRow :=
  toks ++ [{ user_id := userId, token := token, expires_at := now + 60 * 60 * 1000,
             used := false }]

/-- `TokenModel.findPasswordResetToken`: `SELECT * FROM password_reset_tokens
WHERE token = $1 AND expires_at > NOW() AND used = false`. -/
def TokenModel.findPasswordResetToken (toks : List ResetTokenRow) (token : String)
    (now : Nat) : Option ResetTokenRow :=
  toks.find? (fun r => r.token == token && decide (now < r.expires_at) && r.used == false)

/-- `TokenModel.markPasswordResetTokenAsUsed`: `UPDATE password_reset_tokens
SET used = true WHERE token = $1`. -/
def TokenModel.markPasswordResetTokenAsUsed (toks : List ResetTokenRow) (token : String) :
    List ResetTokenRow :=
  toks.map (fun r => if r.token == token then { r with used := true } else r)

/-! ## Controllers (`src/backend/src/controllers/auth.controller.ts`)

Request-level `express-validator` checks are outside the embedding; each
controller is modelled from the point where the validated body fields are
read.  Random values generated inside a controller (`Math.random` OTPs,
`crypto.randomBytes` tokens, signed JWTs) are passed in as parameters. -/

/-- Result of the `login` controller. -/
inductive LoginResult where
  | ok (userId : Nat) (username email accessToken refreshTok : String)
  | err (status : Nat) (message : String)
deriving DecidableEq, Repr

/-- `login`, from after its `validationResult` branch (the preceding
validation step, which rejects a non-email identifier with 400
"Validation failed", is modelled by `loginController` further down): look
the user up by email only; on a missing user or a failed `bcrypt.compare`
return the same 401 response; on success issue an access token and insert
a fresh refresh-token row. -/
def login (st : AppState) (now : Nat) (email password : String)
    (accessTok freshRefresh : String) : LoginResult × AppState :=
  match UserModel.findByEmail st.users email with
  | none => (LoginResult.err 401 "Invalid email or password", st)
  | some user =>
      if UserModel.verifyPassword password user.password_hash then
        (LoginResult.ok user.id user.username user.email accessTok freshRefresh,
         { st with refreshTokens :=
             RefreshTokenModel.create st.refreshTokens user.id freshRefresh now })
      else
        (LoginResult.err 401 "Invalid email or password", st)

/-- A second definition written from the spec's words, for comparison with
`login`: "given {identifier (email-or-username), password}, resolve Identity
by trying email format first then falling back to username lookup; compare
password via hash-verify; on failure return a single generic
InvalidCredentials error". -/
def loginSpecModelled (st : AppState) (now : Nat) (identifier password : String)
    (accessTok freshRefresh : String) : LoginResult × AppState :=
  let resolved :=
    match UserModel.findByEmail st.users identifier with
    | some u => some u
    | none => UserModel.findByUsername st.users identifier
  match resolved with
  | none => (LoginResult.err 401 "Invalid email or password", st)
  | some user =>
      if UserModel.verifyPassword password user.password_hash then
        (LoginResult.ok user.id user.username user.email accessTok freshRefresh,
         { st with refreshTokens :=
             RefreshTokenModel.create st.refreshTokens user.id freshRefresh now })
      else
        (LoginResult.err 401 "Invalid email or password", st)

/-- Result of the `refreshToken` controller. -/
inductive RefreshResult where
  | ok (accessToken newRefresh : String)
  | err (status : Nat) (message : String)
deriving DecidableEq, Repr

/-- `refreshToken` (RefreshSession): reject a missing token; look the token
up (`expires_at > NOW()`); 401 if absent or expired; 404 if its owner no
longer exists; otherwise delete the old row, insert a fresh one for the same
owner, and return the new pair. -/
def refreshSession (st : AppState) (now : Nat) (tok : String)
    (accessTok freshRefresh : String) : RefreshResult × AppState :=
  if tok == "" then (RefreshResult.err 400 "Refresh token is required", st)
  else
    match RefreshTokenModel.findByToken st.refreshTokens tok now with
    | none => (RefreshResult.err 401 "Invalid or expired refresh token", st)
    | some tokenData =>
        match UserModel.findById st.users tokenData.user_id with
        | none => (RefreshResult.err 404 "User not found", st)
        | some user =>
            let rts := RefreshTokenModel.deleteByToken st.refreshTokens tok
            let rts := RefreshTokenModel.create rts user.id freshRefresh now
            (RefreshResult.ok accessTok freshRefresh, { st with refreshTokens := rts })

/-- `resetPassword` (link-token flow): find the reset token
(unexpired, unused); 400 if absent; otherwise update the owner's password,
mark the token used, and delete all of the owner's refresh tokens. -/
def resetPassword (st : AppState) (now : Nat) (token password : String) :
    ApiResponse × AppState :=
  match TokenModel.findPasswordResetToken st.resetTokens token now with
  | none => ({ status := 400, success := false, message := "Invalid or expired reset token" }, st)
  | some tokenData =>
      let users := UserModel.updatePassword st.users tokenData.user_id password
      let resets := TokenModel.markPasswordResetTokenAsUsed st.resetTokens token
      let rts := RefreshTokenModel.deleteAllByUserId st.refreshTokens tokenData.user_id
      ({ status := 200, success := true,
         message := "Password reset successfully. Please login with your new password." },
       { st with users := users, resetTokens := resets, refreshTokens := rts })

/-- `sendOTP`: for `type = 'registration'`, reject an already-registered
email (409) and require the staged username/password; bcrypt-hash the
password and store it alongside the plaintext code via
`createWithRegistrationData`.  For `type = 'password_reset'`, if no user
exists answer 200 with the "If an account with that email exists" message
and create nothing; otherwise store the code via `OTPModel.create` and
answer 200 "OTP sent to your email address".  The third component lists the
emails handed to the notification collaborator. -/
def sendOTP (st : AppState) (now nextId : Nat) (email : String) (kind : OTPKind)
    (username password : Option String) (otp : String) :
    ApiResponse × AppState × List SentEmail :=
  match kind with
  | OTPKind.registration =>
      if UserModel.emailExists st.users email then
        ({ status := 409, success := false, message := "Email already registered" }, st, [])
      else
        match username, password with
        | some uname, some pw =>
            let pwHash := bcryptHash 10 pw
            let otps := OTPModel.createWithRegistrationData st.otps nextId now email otp
              uname pwHash 300
            ({ status := 200, success := true, message := "OTP sent to your email address" },
             { st with otps := otps },
             [{ dest := email, otp := otp, kind := OTPKind.registration }])
        | _, _ =>
            ({ status := 400, success := false,
               message := "Username and password are required for registration" }, st, [])
  | OTPKind.password_reset =>
      match UserModel.findByEmail st.users email with
      | none =>
          ({ status := 200, success := true,
             message := "If an account with that email exists, an OTP has been sent" }, st, [])
      | some _ =>
          let otps := OTPModel.create st.otps nextId now email otp OTPKind.password_reset 300
          ({ status := 200, success := true, message := "OTP sent to your email address" },
           { st with otps := otps },
           [{ dest := email, otp := otp, kind := OTPKind.password_reset }])

/-- Result of the `verifyOTP` controller. -/
inductive VerifyOTPResult where
  | registered (userId : Nat) (username email accessToken refreshTok : String)
  | resetTokenIssued (resetToken : String)
  | err (status : Nat) (message : String)
deriving DecidableEq, Repr

/-- `verifyOTP`: call `OTPModel.verify` (which marks the matched row
verified); 400 "Invalid or expired OTP" if it returns nothing.  For
registration, call `OTPModel.getRegistrationData` — which runs `verify` a
second time — and 400 "Registration data not found" if it returns nothing;
otherwise create the user (`email_verified = true`), delete the pair's OTP
rows, and issue an access/refresh token pair.  For password reset, store a
temporary reset token under user id 0 and delete the pair's OTP rows. -/
def verifyOTP (st : AppState) (now nextUserId : Nat) (email otp : String)
    (kind : OTPKind) (accessTok refreshTok resetTok : String) :
    VerifyOTPResult × AppState :=
  match OTPModel.verify st.otps now email otp kind with
  | (none, otps1) => (VerifyOTPResult.err 400 "Invalid or expired OTP", { st with otps := otps1 })
  | (some _, otps1) =>
      match kind with
      | OTPKind.registration =>
          match OTPModel.getRegistrationData otps1 now email otp with
          | (none, otps2) =>
              (VerifyOTPResult.err 400 "Registration data not found", { st with otps := otps2 })
          | (some (uname, pwHash), otps2) =>
              let newUser : UserRow :=
                { id := nextUserId, username := uname, email := email,
                  password_hash := pwHash, email_verified := true }
              let users := st.users ++ [newUser]
              let otps3 := OTPModel.deleteByEmailAndType otps2 email OTPKind.registration
              let rts := RefreshTokenModel.create st.refreshTokens nextUserId refreshTok now
              (VerifyOTPResult.registered nextUserId uname email accessTok refreshTok,
               { st with users := users, otps := otps3, refreshTokens := rts })
      | OTPKind.password_reset =>
          let resets := TokenModel.createPasswordResetToken st.resetTokens 0 resetTok now
          let otps3 := OTPModel.deleteByEmailAndType otps1 email OTPKind.password_reset
          (VerifyOTPResult.resetTokenIssued resetTok,
           { st with otps := otps3, resetTokens := resets })

/-- `resetPasswordWithToken`: find the temporary reset token (unexpired,
unused); 400 if absent; require an `email` field in the body; look the user
up by that email; update that user's password, mark the token used, delete
all of that user's refresh tokens.  The token row itself carries no email,
so the updated account is whichever one the request's `email` names. -/
def resetPasswordWithToken (st : AppState) (now : Nat) (resetTok password : String)
    (email : Option String) : ApiResponse × AppState :=
  match TokenModel.findPasswordResetToken st.resetTokens resetTok now with
  | none => ({ status := 400, success := false, message := "Invalid or expired reset token" }, st)
  | some _ =>
      match email with
      | none => ({ status := 400, success := false, message := "Email is required" }, st)
      | some e =>
          match UserModel.findByEmail st.users e with
          | none => ({ status := 400, success := false, message := "User not found" }, st)
          | some user =>
              let users := UserModel.updatePassword st.users user.id password
              let resets := TokenModel.markPasswordResetTokenAsUsed st.resetTokens resetTok
              let rts := RefreshTokenModel.deleteAllByUserId st.refreshTokens user.id
              ({ status := 200, success := true,
                 message := "Password reset successfully. Please login with your new password." },
               { st with users := users, resetTokens := resets, refreshTokens := rts })

/-! ## Helper lemmas -/

/-- A fold computing `ORDER BY ... LIMIT 1` stays at its accumulator when no
row matches. -/
theorem latestMatching_eq_none (otps : List OTPRow) (p : OTPRow → Bool)
    (h : ∀ r ∈ otps, p r = false) : latestMatching otps p = none := by
  have key : ∀ (l : List OTPRow) (acc : Option OTPRow), (∀ r ∈ l, p r = false) →
      l.foldl
        (fun acc r =>
          if p r then
            match acc with
            | none => some r
            | some a => if a.created_at ≤ r.created_at then some r else some a
          else acc)
        acc = acc := by
    intro l
    induction l with
    | nil => intro acc _; rfl
    | cons hd tl ih =>
        intro acc hall
        simp only [List.foldl_cons, hall hd (List.mem_cons_self hd tl), Bool.false_eq_true,
          if_false]
        exact ih acc (fun r hr => hall r (List.mem_cons_of_mem hd hr))
  exact key otps none h

/-- A row that is consumed, or expired at the query instant, or not for the
queried pair, fails the `WHERE` clause of `OTPModel.verify`. -/
theorem otp_matches_false_of_inactive (email otpCode : String) (kind : OTPKind) (now : Nat)
    (r : OTPRow) (h : r.email = email → r.kind = kind →
      r.is_verified = true ∨ r.expires_at ≤ now) :
    OTPModel.matches email otpCode kind now r = false := by
  by_cases he : r.email = email
  · by_cases hk : r.kind = kind
    · rcases h he hk with hv | hx
      · simp [OTPModel.matches, hv]
      · simp [OTPModel.matches, Nat.not_lt.mpr hx]
    · simp [OTPModel.matches, hk]
  · simp [OTPModel.matches, he]

/-- `findByToken` finds nothing when no row carries the token. -/
theorem findByToken_eq_none_of_absent (rts : List RefreshRow) (tok : String) (now : Nat)
    (h : ∀ r ∈ rts, r.token ≠ tok) :
    RefreshTokenModel.findByToken rts tok now = none := by
  unfold RefreshTokenModel.findByToken
  rw [List.find?_eq_none]
  intro r hr
  simp [h r hr]

/-! ## Concrete states used by witnesses and counterexamples -/

/-- A registered, verified user. -/
def exUser : UserRow :=
  { id := 1, username := "bob", email := "bob@example.com",
    password_hash := bcryptHash 10 "Passw0rd", email_verified := true }

/-- A state holding just `exUser`. -/
def exBobState : AppState :=
  { users := [exUser], otps := [], refreshTokens := [], resetTokens := [] }

/-- An empty state (no users yet). -/
def exEmptyState : AppState :=
  { users := [], otps := [], refreshTokens := [], resetTokens := [] }

/-- C1: the passcode row that `sendOTP` actually writes for
`("bob@example.com", password_reset)` with generated code `123456`. -/
def exPlainRow : OTPRow :=
  { id := 10, email := "bob@example.com", otp_code := "123456",
    kind := OTPKind.password_reset, username := none, password_hash := none,
    is_verified := false, expires_at := 300000, created_at := 0 }

/-- C1: the row the hashed `OTPModel` variant would have written instead. -/
def exHashedRow : OTPHashedRow :=
  { id := 10, email := "bob@example.com", otp_hash := bcryptHash 10 "123456",
    kind := OTPKind.password_reset, is_verified := false,
    expires_at := 300000, created_at := 0 }

/-- C1 (code bug, evaluated at the failing input): calling the passcode
issuer `sendOTP` for `("bob@example.com", password_reset)` with generated
code `123456` writes a ledger row whose stored `otp_code` column IS the
plaintext `123456` — no bcrypt-class hash; the plaintext is simultaneously
handed to the notification collaborator.  By contrast, the hashed
`OTPModel` variant (the one matching `schema.sql`) would have stored only
`bcrypt(10, "123456")`. -/
theorem sendOTP_persists_plaintext_code :
    (sendOTP exBobState 0 10 "bob@example.com" OTPKind.password_reset none none "123456").2.1.otps
      = [exPlainRow] ∧
    exPlainRow.otp_code = "123456" ∧
    (sendOTP exBobState 0 10 "bob@example.com" OTPKind.password_reset none none "123456").2.2
      = [{ dest := "bob@example.com", otp := "123456", kind := OTPKind.password_reset }] ∧
    OTPModelHashed.create [] 10 0 "bob@example.com" "123456" OTPKind.password_reset 300
      = [exHashedRow] :=
  ⟨rfl, rfl, rfl, rfl⟩

/-- C2 (code bug, evaluated at the failing input): issue a passcode for
`("bob@example.com", password_reset)` with code `111111`, then issue a
second one with code `222222`.  In the variant wired to the controllers the
first record is not invalidated: both rows remain active and the EARLIER
code `111111` still verifies.  The hashed `OTPModel` variant deletes the
prior unverified row on issuance, so there the earlier code fails. -/
theorem stale_code_still_verifies :
    ((OTPModel.verify
        ((sendOTP ((sendOTP exBobState 0 10 "bob@example.com" OTPKind.password_reset
              none none "111111").2.1)
            1000 11 "bob@example.com" OTPKind.password_reset none none "222222").2.1).otps
        2000 "bob@example.com" "111111" OTPKind.password_reset).1).isSome = true ∧
    (((sendOTP ((sendOTP exBobState 0 10 "bob@example.com" OTPKind.password_reset
            none none "111111").2.1)
          1000 11 "bob@example.com" OTPKind.password_reset none none "222222").2.1).otps.countP
        (fun r => r.email == "bob@example.com" && r.kind == OTPKind.password_reset &&
          r.is_verified == false && decide (2000 < r.expires_at))) = 2 ∧
    (OTPModelHashed.verify
        (OTPModelHashed.create
          (OTPModelHashed.create [] 10 0 "bob@example.com" "111111" OTPKind.password_reset 300)
          11 1000 "bob@example.com" "222222" OTPKind.password_reset 300)
        2000 "bob@example.com" "111111" OTPKind.password_reset).1 = false :=
  ⟨rfl, rfl, rfl⟩

/-- C3 (code bug, evaluated at the failing input): request a registration
code for `new@example.com` (username `alice`, password `Str0ngPass!`), then
complete registration with the correct, unexpired code.  `verifyOTP` first
marks the row verified, then `getRegistrationData` re-runs `verify`, whose
query requires `is_verified = false` — so the flow always answers
400 "Registration data not found" and no Identity is created. -/
theorem registration_completion_fails :
    ((verifyOTP
        ((sendOTP exEmptyState 0 7 "new@example.com" OTPKind.registration
            (some "alice") (some "Str0ngPass!") "123456").2.1)
        1000 1 "new@example.com" "123456" OTPKind.registration "at" "rt" "tk").1
      = VerifyOTPResult.err 400 "Registration data not found") ∧
    ((verifyOTP
        ((sendOTP exEmptyState 0 7 "new@example.com" OTPKind.registration
            (some "alice") (some "Str0ngPass!") "123456").2.1)
        1000 1 "new@example.com" "123456" OTPKind.registration "at" "rt" "tk").2.users
      = []) :=
  ⟨rfl, rfl⟩

/-- A `RefreshSession` call whose token is not found (or expired) answers
401 "Invalid or expired refresh token" and leaves the state unchanged. -/
theorem refreshSession_err_of_not_found (st : AppState) (now : Nat) (t a f : String)
    (hne : t ≠ "")
    (h : RefreshTokenModel.findByToken st.refreshTokens t now = none) :
    refreshSession st now t a f
      = (RefreshResult.err 401 "Invalid or expired refresh token", st) := by
  have hbe : (t == "") = false := by simp [hne]
  simp only [refreshSession, hbe, Bool.false_eq_true, if_false, h]

/-- C4: refresh-token rotation is exactly-once.  When `RefreshSession`
finds the (unexpired) record for `t` and its owner exists, the call
succeeds, the record for `t` is deleted and replaced by a fresh record
bound to the same owner, and any subsequent `RefreshSession` with the same
`t` fails with the 401 "Invalid or expired refresh token" response. -/
theorem refreshSession_rotation_exactly_once
    (st : AppState) (now now2 : Nat) (t a f a2 f2 : String)
    (td : RefreshRow) (u : UserRow)
    (hne : t ≠ "") (hfresh : f ≠ t)
    (hfind : RefreshTokenModel.findByToken st.refreshTokens t now = some td)
    (huser : UserModel.findById st.users td.user_id = some u) :
    refreshSession st now t a f
      = (RefreshResult.ok a f,
         { st with refreshTokens :=
             RefreshTokenModel.deleteByToken st.refreshTokens t
               ++ [{ user_id := u.id, token := f, expires_at := now + refreshTokenTTL }] }) ∧
    u.id = td.user_id ∧
    (∀ r ∈ (refreshSession st now t a f).2.refreshTokens, r.token ≠ t) ∧
    refreshSession (refreshSession st now t a f).2 now2 t a2 f2
      = (RefreshResult.err 401 "Invalid or expired refresh token",
         (refreshSession st now t a f).2) := by
  have hbe : (t == "") = false := by simp [hne]
  have hmain : refreshSession st now t a f
      = (RefreshResult.ok a f,
         { st with refreshTokens :=
             RefreshTokenModel.deleteByToken st.refreshTokens t
               ++ [{ user_id := u.id, token := f, expires_at := now + refreshTokenTTL }] }) := by
    simp only [refreshSession, hbe, Bool.false_eq_true, if_false, hfind, huser,
      RefreshTokenModel.create]
  have hid : u.id = td.user_id := by
    have h1 : st.users.find? (fun x => x.id == td.user_id) = some u := huser
    have h2 := List.find?_some h1
    simpa using h2
  have habsent : ∀ r ∈ (refreshSession st now t a f).2.refreshTokens, r.token ≠ t := by
    rw [hmain]
    intro r hr
    rcases List.mem_append.mp hr with h1 | h2
    · have := List.of_mem_filter h1
      simpa using this
    · have h3 : r = { user_id := u.id, token := f, expires_at := now + refreshTokenTTL } :=
        List.mem_singleton.mp h2
      rw [h3]
      exact hfresh
  refine ⟨hmain, hid, habsent, ?_⟩
  exact refreshSession_err_of_not_found _ now2 t a2 f2 hne
    (findByToken_eq_none_of_absent _ _ _ habsent)

/-- C4 witness state: one user with two live refresh tokens. -/
def exRefresh1 : RefreshRow := { user_id := 1, token := "R1", expires_at := 2592000000 }

/-- Second live refresh token of the same user. -/
def exRefresh9 : RefreshRow := { user_id := 1, token := "R9", expires_at := 2592000000 }

/-- State with `exUser` holding refresh tokens `R1` and `R9`. -/
def exSessionState : AppState :=
  { users := [exUser], otps := [], refreshTokens := [exRefresh1, exRefresh9],
    resetTokens := [] }

/-- C4 witness: the rotation theorem applied at a concrete state. -/
theorem refreshSession_rotation_exactly_once_witness :
    refreshSession exSessionState 0 "R1" "at" "R2"
      = (RefreshResult.ok "at" "R2",
         { exSessionState with refreshTokens :=
             RefreshTokenModel.deleteByToken exSessionState.refreshTokens "R1"
               ++ [{ user_id := exUser.id, token := "R2", expires_at := 0 + refreshTokenTTL }] }) ∧
    exUser.id = exRefresh1.user_id ∧
    (∀ r ∈ (refreshSession exSessionState 0 "R1" "at" "R2").2.refreshTokens, r.token ≠ "R1") ∧
    refreshSession (refreshSession exSessionState 0 "R1" "at" "R2").2 5 "R1" "at2" "R3"
      = (RefreshResult.err 401 "Invalid or expired refresh token",
         (refreshSession exSessionState 0 "R1" "at" "R2").2) :=
  refreshSession_rotation_exactly_once exSessionState 0 5 "R1" "at" "R2" "at2" "R3"
    exRefresh1 exUser (by decide) (by decide) (by rfl) (by rfl)

/-- C5: completing a password reset with a valid reset token answers 200,
replaces the owning identity's `password_hash` with the hash of the new
password, and deletes EVERY refresh-token record owned by that identity —
afterwards no refresh token of that identity is found by `findByToken`. -/
theorem resetPassword_revokes_all_sessions
    (st : AppState) (now : Nat) (token password : String) (td : ResetTokenRow)
    (hfind : TokenModel.findPasswordResetToken st.resetTokens token now = some td) :
    (resetPassword st now token password).1
      = { status := 200, success := true,
          message := "Password reset successfully. Please login with your new password." } ∧
    (∀ u ∈ (resetPassword st now token password).2.users,
        u.id = td.user_id → u.password_hash = bcryptHash 10 password) ∧
    (∀ r ∈ (resetPassword st now token password).2.refreshTokens, r.user_id ≠ td.user_id) ∧
    (∀ tok now2 r, RefreshTokenModel.findByToken
        (resetPassword st now token password).2.refreshTokens tok now2 = some r →
        r.user_id ≠ td.user_id) := by
  have hmain : resetPassword st now token password
      = ({ status := 200, success := true,
           message := "Password reset successfully. Please login with your new password." },
         { st with users := UserModel.updatePassword st.users td.user_id password,
                   resetTokens := TokenModel.markPasswordResetTokenAsUsed st.resetTokens token,
                   refreshTokens := RefreshTokenModel.deleteAllByUserId st.refreshTokens
                     td.user_id }) := by
    unfold resetPassword
    rw [hfind]
  have husers : ∀ u ∈ (resetPassword st now token password).2.users,
      u.id = td.user_id → u.password_hash = bcryptHash 10 password := by
    rw [hmain]
    intro u hu hid
    rcases List.mem_map.mp hu with ⟨v, _, rfl⟩
    by_cases h : v.id = td.user_id
    · simp [h]
    · simp only [beq_iff_eq, h, if_false] at hid ⊢
  have hrts : ∀ r ∈ (resetPassword st now token password).2.refreshTokens,
      r.user_id ≠ td.user_id := by
    rw [hmain]
    intro r hr
    have := List.of_mem_filter hr
    simpa using this
  refine ⟨by rw [hmain], husers, hrts, ?_⟩
  intro tok now2 r hfound
  have hmem : r ∈ (resetPassword st now token password).2.refreshTokens :=
    List.mem_of_find?_eq_some hfound
  exact hrts r hmem

/-- C5 witness state pieces: a live, unused reset token for `exUser`. -/
def exResetRow : ResetTokenRow :=
  { user_id := 1, token := "LT", expires_at := 500000, used := false }

/-- State with `exUser`, two live refresh tokens and the reset token. -/
def exResetState : AppState :=
  { users := [exUser], otps := [], refreshTokens := [exRefresh1, exRefresh9],
    resetTokens := [exResetRow] }

/-- C5 witness: the reset theorem applied at a concrete state. -/
theorem resetPassword_revokes_all_sessions_witness :
    (resetPassword exResetState 1000 "LT" "NewPass1").1
      = { status := 200, success := true,
          message := "Password reset successfully. Please login with your new password." } ∧
    (∀ u ∈ (resetPassword exResetState 1000 "LT" "NewPass1").2.users,
        u.id = exResetRow.user_id → u.password_hash = bcryptHash 10 "NewPass1") ∧
    (∀ r ∈ (resetPassword exResetState 1000 "LT" "NewPass1").2.refreshTokens,
        r.user_id ≠ exResetRow.user_id) ∧
    (∀ tok now2 r, RefreshTokenModel.findByToken
        (resetPassword exResetState 1000 "LT" "NewPass1").2.refreshTokens tok now2 = some r →
        r.user_id ≠ exResetRow.user_id) :=
  resetPassword_revokes_all_sessions exResetState 1000 "LT" "NewPass1" exResetRow (by rfl)

/-- C6: whenever every `otps` row for the (destination, purpose) pair is
already consumed or expired at the call instant (in particular when there is
no row at all, or when the only row carries the correct code but
`expires_at ≤ now`), `verifyOTP` answers the generic 400
"Invalid or expired OTP" response and leaves the state unchanged. -/
theorem verifyOTP_rejects_inactive
    (st : AppState) (now nextUserId : Nat) (email otp : String) (kind : OTPKind)
    (a rt rk : String)
    (h : ∀ r ∈ st.otps, r.email = email → r.kind = kind →
        r.is_verified = true ∨ r.expires_at ≤ now) :
    verifyOTP st now nextUserId email otp kind a rt rk
      = (VerifyOTPResult.err 400 "Invalid or expired OTP", st) := by
  have hnone : latestMatching st.otps (OTPModel.matches email otp kind now) = none :=
    latestMatching_eq_none _ _
      (fun r hr => otp_matches_false_of_inactive email otp kind now r (h r hr))
  have hver : OTPModel.verify st.otps now email otp kind = (none, st.otps) := by
    unfold OTPModel.verify
    rw [hnone]
  simp only [verifyOTP, hver]

/-- C6 witness row: a password-reset code created at time 0, expiring at
300000 (5 minutes). -/
def exExpiredRow : OTPRow :=
  { id := 3, email := "bob@example.com", otp_code := "654321",
    kind := OTPKind.password_reset, username := none, password_hash := none,
    is_verified := false, expires_at := 300000, created_at := 0 }

/-- State holding only the (about to be expired) code. -/
def exExpiredState : AppState :=
  { users := [exUser], otps := [exExpiredRow], refreshTokens := [], resetTokens := [] }

/-- C6 witness: at the expiry instant, the CORRECT code `654321` is
rejected with the generic response. -/
theorem verifyOTP_rejects_inactive_witness :
    verifyOTP exExpiredState 300000 99 "bob@example.com" "654321" OTPKind.password_reset
        "a" "r" "k"
      = (VerifyOTPResult.err 400 "Invalid or expired OTP", exExpiredState) := by
  apply verifyOTP_rejects_inactive
  intro r hr
  have hmem : r = exExpiredRow := by
    simpa [exExpiredState] using hr
  intro _ _
  rw [hmem]
  right
  decide

/-- C7: the two failing `Login` shapes — identifier matching no Identity,
and existing identifier with a wrong password — produce literally the same
error value: status 401 with message "Invalid email or password". -/
theorem login_failures_indistinguishable
    (st1 st2 : AppState) (now1 now2 : Nat) (e1 p1 a1 f1 e2 p2 a2 f2 : String) (u : UserRow)
    (h1 : UserModel.findByEmail st1.users e1 = none)
    (h2 : UserModel.findByEmail st2.users e2 = some u)
    (h3 : UserModel.verifyPassword p2 u.password_hash = false) :
    (login st1 now1 e1 p1 a1 f1).1 = LoginResult.err 401 "Invalid email or password" ∧
    (login st2 now2 e2 p2 a2 f2).1 = LoginResult.err 401 "Invalid email or password" ∧
    (login st1 now1 e1 p1 a1 f1).1 = (login st2 now2 e2 p2 a2 f2).1 := by
  have l1 : (login st1 now1 e1 p1 a1 f1).1 = LoginResult.err 401 "Invalid email or password" := by
    simp only [login, h1]
  have l2 : (login st2 now2 e2 p2 a2 f2).1 = LoginResult.err 401 "Invalid email or password" := by
    simp only [login, h2, h3, Bool.false_eq_true, if_false]
  exact ⟨l1, l2, l1.trans l2.symm⟩

/-- C7 witness: concrete unknown-identifier failure versus concrete
wrong-password failure against `exUser`. -/
theorem login_failures_indistinguishable_witness :
    (login exBobState 0 "nobody@example.com" "Whatever1" "a1" "f1").1
      = LoginResult.err 401 "Invalid email or password" ∧
    (login exBobState 0 "bob@example.com" "WrongPass1" "a2" "f2").1
      = LoginResult.err 401 "Invalid email or password" ∧
    (login exBobState 0 "nobody@example.com" "Whatever1" "a1" "f1").1
      = (login exBobState 0 "bob@example.com" "WrongPass1" "a2" "f2").1 :=
  login_failures_indistinguishable exBobState exBobState 0 0
    "nobody@example.com" "Whatever1" "a1" "f1" "bob@example.com" "WrongPass1" "a2" "f2"
    exUser (by rfl) (by rfl) (by rfl)

/-- A registered user whose username is `alice`. -/
def exAliceUser : UserRow :=
  { id := 1, username := "alice", email := "alice@example.com",
    password_hash := bcryptHash 10 "Str0ngPass1", email_verified := true }

/-- State holding just `exAliceUser`. -/
def exAliceState : AppState :=
  { users := [exAliceUser], otps := [], refreshTokens := [], resetTokens := [] }

/-- Split a character list at every occurrence of `c`. -/
def splitOnChar (c : Char) (l : List Char) : List (List Char) :=
  match l with
  | [] => [[]]
  | x :: xs =>
      let rest := splitOnChar c xs
      if x == c then [] :: rest
      else
        match rest with
        | [] => [[x]]
        | y :: ys => (x :: y) :: ys

/-- Simplified embedding of the `isEmail` check that `loginValidation`
applies to the `email` body field (express-validator / validator.js).  The
library's full address grammar is much larger; this model keeps the part
that matters here: the string must split as one `local@domain` with a
nonempty local part and a dotted domain of nonempty labels.  It agrees with
the library on every input in this file — a bare username contains no `@`
and is rejected; an ordinary address such as `bob@example.com` is
accepted. -/
def isEmailShaped (s : String) : Bool :=
  match splitOnChar '@' s.toList with
  | [locPart, domain] =>
      let labels := splitOnChar '.' domain
      !locPart.isEmpty && decide (2 ≤ labels.length) && labels.all (fun p => !p.isEmpty)
  | _ => false

/-- The `login` controller including its validation step
(`loginValidation` + the `validationResult` branch at the top of `login`,
auth.controller.ts lines 226-234): a request whose `email` field is not
email-shaped is answered 400 "Validation failed" before any lookup;
otherwise the post-validation body `login` runs. -/
def loginController (st : AppState) (now : Nat) (identifier password : String)
    (accessTok freshRefresh : String) : LoginResult × AppState :=
  if isEmailShaped identifier then
    login st now identifier password accessTok freshRefresh
  else
    (LoginResult.err 400 "Validation failed", st)

/-- C8 counterexample: `alice` is a registered username and the correct
password is supplied, yet the login flow never resolves it: the
identifier travels in the `email` body field, `loginValidation` rejects it
as not email-shaped, and the controller answers 400 "Validation failed"
before any lookup or password comparison.  The spec-worded resolver
(`loginSpecModelled`, email first then username fallback) would have
succeeded on the same input. -/
theorem login_username_identifier_cex :
    isEmailShaped "alice" = false ∧
    UserModel.findByUsername exAliceState.users "alice" = some exAliceUser ∧
    bcryptCompare "Str0ngPass1" exAliceUser.password_hash = true ∧
    (loginController exAliceState 0 "alice" "Str0ngPass1" "at" "rt").1
      = LoginResult.err 400 "Validation failed" ∧
    (loginSpecModelled exAliceState 0 "alice" "Str0ngPass1" "at" "rt").1
      = LoginResult.ok 1 "alice" "alice@example.com" "at" "rt" :=
  ⟨by decide, rfl, rfl, by decide, rfl⟩

/-- C8 amended: the login identifier must be an email.  A non-email-shaped
identifier (such as a bare username) is rejected by validation with 400
"Validation failed" before any lookup; an email-shaped identifier is
resolved by `findByEmail` alone — there is no username fallback — so one
matching no account fails with the generic 401, whatever the password. -/
theorem login_email_identifier_only
    (st : AppState) (now : Nat) (ident pw a f : String) :
    (isEmailShaped ident = false →
      loginController st now ident pw a f
        = (LoginResult.err 400 "Validation failed", st)) ∧
    (isEmailShaped ident = true → UserModel.findByEmail st.users ident = none →
      loginController st now ident pw a f
        = (LoginResult.err 401 "Invalid email or password", st)) := by
  constructor
  · intro h
    simp only [loginController, h, Bool.false_eq_true, if_false]
  · intro h hn
    simp only [loginController, h, if_true, login, hn]

/-- C8 amended witness: the theorem applied at the `alice`-as-identifier
input (validation rejection) and at an unknown email-shaped identifier
(generic 401). -/
theorem login_email_identifier_only_witness :
    loginController exAliceState 0 "alice" "Str0ngPass1" "at" "rt"
      = (LoginResult.err 400 "Validation failed", exAliceState) ∧
    loginController exAliceState 0 "nobody@example.com" "Str0ngPass1" "at" "rt"
      = (LoginResult.err 401 "Invalid email or password", exAliceState) :=
  ⟨(login_email_identifier_only exAliceState 0 "alice" "Str0ngPass1" "at" "rt").1 (by decide),
   (login_email_identifier_only exAliceState 0 "nobody@example.com" "Str0ngPass1"
       "at" "rt").2 (by decide) (by rfl)⟩

/-- C9 counterexample: for an email with no account, `sendOTP`
(password-reset branch) answers 200/success with the message "If an account
with that email exists, an OTP has been sent", while for an existing
account it answers "OTP sent to your email address" — the two success
acknowledgements are NOT identical, so the response reveals whether the
account exists. -/
theorem sendOTP_ack_not_identical_cex :
    (sendOTP exBobState 0 10 "nobody@example.com" OTPKind.password_reset none none "123456").1
      = { status := 200, success := true,
          message := "If an account with that email exists, an OTP has been sent" } ∧
    (sendOTP exBobState 0 10 "bob@example.com" OTPKind.password_reset none none "123456").1
      = { status := 200, success := true, message := "OTP sent to your email address" } ∧
    (sendOTP exBobState 0 10 "nobody@example.com" OTPKind.password_reset none none "123456").1
      ≠ (sendOTP exBobState 0 10 "bob@example.com" OTPKind.password_reset none none "123456").1 :=
  ⟨rfl, rfl, by decide⟩

/-- C9 amended: for an email with no account, the password-reset branch of
`sendOTP` still answers success (HTTP 200, `success = true`), creates no
passcode record (the whole state is unchanged), and hands nothing to the
notification collaborator — but its message text differs from the
existing-account acknowledgement. -/
theorem sendOTP_unknown_email_no_issuance
    (st : AppState) (now nextId : Nat) (email otp : String)
    (h : UserModel.findByEmail st.users email = none) :
    sendOTP st now nextId email OTPKind.password_reset none none otp
      = ({ status := 200, success := true,
           message := "If an account with that email exists, an OTP has been sent" }, st, []) := by
  simp only [sendOTP, h]

/-- C9 amended witness: applied at a concrete unknown address. -/
theorem sendOTP_unknown_email_no_issuance_witness :
    sendOTP exBobState 0 10 "nobody@example.com" OTPKind.password_reset none none "123456"
      = ({ status := 200, success := true,
           message := "If an account with that email exists, an OTP has been sent" },
         exBobState, []) :=
  sendOTP_unknown_email_no_issuance exBobState 0 10 "nobody@example.com" "123456" (by rfl)

/-- C10: (a) after a successful password-reset code verification,
`verifyOTP` appends a reset-token row whose `user_id` is the constant 0 —
not the id of the identity whose code was verified; (b) `resetPasswordWithToken`
with any valid reset token and ANY registered email replaces THAT account's
password hash and deletes all of THAT account's refresh tokens, with no
check connecting the email to the originally verified one. -/
theorem reset_token_unbound_to_identity
    (st st2 : AppState) (now now2 nextUserId : Nat)
    (email otp resetTok newPassword e a r : String)
    (row : OTPRow) (otps1 : List OTPRow) (td : ResetTokenRow) (u : UserRow)
    (hver : OTPModel.verify st.otps now email otp OTPKind.password_reset = (some row, otps1))
    (hfind : TokenModel.findPasswordResetToken st2.resetTokens resetTok now2 = some td)
    (huser : UserModel.findByEmail st2.users e = some u) :
    (verifyOTP st now nextUserId email otp OTPKind.password_reset a r resetTok).2.resetTokens
      = st.resetTokens ++ [{ user_id := 0, token := resetTok,
                             expires_at := now + 60 * 60 * 1000, used := false }] ∧
    (resetPasswordWithToken st2 now2 resetTok newPassword (some e)).1
      = { status := 200, success := true,
          message := "Password reset successfully. Please login with your new password." } ∧
    (∀ v ∈ (resetPasswordWithToken st2 now2 resetTok newPassword (some e)).2.users,
        v.id = u.id → v.password_hash = bcryptHash 10 newPassword) ∧
    (∀ rr ∈ (resetPasswordWithToken st2 now2 resetTok newPassword (some e)).2.refreshTokens,
        rr.user_id ≠ u.id) := by
  have hpart1 : (verifyOTP st now nextUserId email otp OTPKind.password_reset
        a r resetTok).2.resetTokens
      = st.resetTokens ++ [{ user_id := 0, token := resetTok,
                             expires_at := now + 60 * 60 * 1000, used := false }] := by
    simp only [verifyOTP, hver, TokenModel.createPasswordResetToken]
  have hmain : resetPasswordWithToken st2 now2 resetTok newPassword (some e)
      = ({ status := 200, success := true,
           message := "Password reset successfully. Please login with your new password." },
         { st2 with users := UserModel.updatePassword st2.users u.id newPassword,
                    resetTokens := TokenModel.markPasswordResetTokenAsUsed st2.resetTokens
                      resetTok,
                    refreshTokens := RefreshTokenModel.deleteAllByUserId st2.refreshTokens
                      u.id }) := by
    simp only [resetPasswordWithToken, hfind, huser]
  refine ⟨hpart1, by rw [hmain], ?_, ?_⟩
  · rw [hmain]
    intro v hv hid
    rcases List.mem_map.mp hv with ⟨w, _, rfl⟩
    by_cases h : w.id = u.id
    · simp [h]
    · simp only [beq_iff_eq, h, if_false] at hid ⊢
  · rw [hmain]
    intro rr hrr
    have := List.of_mem_filter hrr
    simpa using this

/-- A second registered user, the victim in the C10 witness. -/
def exEveUser : UserRow :=
  { id := 2, username := "eve", email := "eve@example.com",
    password_hash := bcryptHash 10 "EvePass99", email_verified := true }

/-- C10 witness state for the verification call: `bob`'s password-reset
code is pending. -/
def exC10State : AppState :=
  { users := [exUser, exEveUser], otps := [exExpiredRow],
    refreshTokens := [exRefresh1], resetTokens := [] }

/-- Refresh token owned by `eve`. -/
def exEveRefresh : RefreshRow := { user_id := 2, token := "E1", expires_at := 2592000000 }

/-- C10 witness state for the completion call: the temporary reset token
(user id 0) exists; `eve` owns a live refresh token. -/
def exC10State2 : AppState :=
  { users := [exUser, exEveUser], otps := [],
    refreshTokens := [exRefresh1, exEveRefresh],
    resetTokens := [{ user_id := 0, token := "TOK", expires_at := 3601000, used := false }] }

/-- C10 witness: `bob`'s code was the one verified, yet supplying
`eve@example.com` at completion resets EVE's password and revokes eve's
sessions. -/
theorem reset_token_unbound_to_identity_witness :
    (verifyOTP exC10State 1000 99 "bob@example.com" "654321" OTPKind.password_reset
        "a" "r" "TOK").2.resetTokens
      = exC10State.resetTokens ++ [{ user_id := 0, token := "TOK",
                                     expires_at := 1000 + 60 * 60 * 1000, used := false }] ∧
    (resetPasswordWithToken exC10State2 2000 "TOK" "NewPass1" (some "eve@example.com")).1
      = { status := 200, success := true,
          message := "Password reset successfully. Please login with your new password." } ∧
    (∀ v ∈ (resetPasswordWithToken exC10State2 2000 "TOK" "NewPass1"
        (some "eve@example.com")).2.users,
        v.id = exEveUser.id → v.password_hash = bcryptHash 10 "NewPass1") ∧
    (∀ rr ∈ (resetPasswordWithToken exC10State2 2000 "TOK" "NewPass1"
        (some "eve@example.com")).2.refreshTokens,
        rr.user_id ≠ exEveUser.id) :=
  reset_token_unbound_to_identity exC10State exC10State2 1000 2000 99
    "bob@example.com" "654321" "TOK" "NewPass1" "eve@example.com" "a" "r"
    exExpiredRow
    ((OTPModel.verify exC10State.otps 1000 "bob@example.com" "654321"
        OTPKind.password_reset).2)
    { user_id := 0, token := "TOK", expires_at := 3601000, used := false }
    exEveUser (by rfl) (by rfl) (by rfl)
